import Mathlib

/-!
Shallow embedding of `src/src-tauri/src/lib.rs` from the
`local-tabletop-map` repository.

The Rust source consists of a single Tauri command `open_player_window`
and a bootstrap function `run`.  The window registry of the Tauri
runtime is modelled as a list of window records; the window-creation
primitive (`WebviewWindowBuilder::build`) is modelled by an explicit
outcome parameter, since its success or failure is decided by the
platform, not by this code.  The command is instrumented to also return
the list of creation requests it issued, so that "requests creation of
exactly one window" is directly statable.
-/

namespace LocalTabletopMap

/-- The content source of a webview window.  The source only ever uses
`WebviewUrl::App("index.html")`, the application's bundled root document. -/
inductive WebviewUrl where
  | App (path : String)
deriving DecidableEq, Repr

/-- One window of the running application, as configured by
`WebviewWindowBuilder::new(..).title(..).inner_size(..)` in the source:
a string label (identifier), a title, logical pixel dimensions and a
content URL.  The source passes the exact sizes `1920.0` and `1080.0`,
so dimensions are modelled as the corresponding natural numbers. -/
structure Window where
  label : String
  title : String
  width : Nat
  height : Nat
  url : WebviewUrl
deriving DecidableEq, Repr

/-- The mutable state the command touches: the set of currently open
windows, owned by the Tauri runtime. -/
structure AppState where
  windows : List Window
deriving DecidableEq, Repr

/-- Embedding of `app.get_webview_window(label)`: look up a window by its
exact string label. -/
def get_webview_window (s : AppState) (label : String) : Option Window :=
  s.windows.find? (fun w => w.label == label)

/-- The fixed window configuration built at lines 10-13 of the source:
`WebviewWindowBuilder::new(&app, "player", WebviewUrl::App("index.html"))
.title("VTT - Player View").inner_size(1920.0, 1080.0)`. -/
def playerWindow : Window :=
  { label := "player"
    title := "VTT - Player View"
    width := 1920
    height := 1080
    url := WebviewUrl.App "index.html" }

/-- Outcome of the underlying window-creation primitive
(`WebviewWindowBuilder::build`): success, or a `tauri::Error` whose
`to_string()` rendering is the carried message. -/
inductive BuildOutcome where
  | ok
  | err (msg : String)
deriving DecidableEq, Repr

instance : DecidableEq (Except String Unit) := fun a b =>
  match a, b with
  | Except.ok (), Except.ok () => isTrue rfl
  | Except.error e, Except.error f =>
      if h : e = f then isTrue (by rw [h]) else isFalse (by intro hc; cases hc; exact h rfl)
  | Except.ok (), Except.error _ => isFalse (by intro hc; cases hc)
  | Except.error _, Except.ok () => isFalse (by intro hc; cases hc)

/-- Result of one invocation of the command: the `Result<(), String>`
returned to the caller, the window registry afterwards, and the list of
creation requests issued to the build primitive during the call. -/
structure CmdOut where
  result : Except String Unit
  state : AppState
  requests : List Window
deriving DecidableEq, Repr

/-- Embedding of the command `open_player_window` (lines 4-17 of the
source).  If a window labelled "player" already exists it returns `Ok(())`
immediately; otherwise it requests creation of `playerWindow`, and either
registers it (build succeeded) or returns the error rendered as a string
via `map_err(|e| e.to_string())` (build failed, registry unchanged). -/
def open_player_window (s : AppState) (o : BuildOutcome) : CmdOut :=
  if (get_webview_window s "player").isSome then
    { result := Except.ok (), state := s, requests := [] }
  else
    match o with
    | BuildOutcome.ok =>
        { result := Except.ok ()
          state := { windows := s.windows ++ [playerWindow] }
          requests := [playerWindow] }
    | BuildOutcome.err e =>
        { result := Except.error e, state := s, requests := [playerWindow] }

/-- Number of windows labelled "player" in a state. -/
def countPlayer (s : AppState) : Nat :=
  (s.windows.filter (fun w => w.label == "player")).length

/-- The registry invariant of the runtime: at most one window per
identifier, expressed as the labels of the open windows being pairwise
distinct. -/
def labelsNodup (s : AppState) : Prop :=
  (s.windows.map Window.label).Nodup

instance (s : AppState) : Decidable (labelsNodup s) := by
  unfold labelsNodup; infer_instance

/-- States in which every window labelled "player" carries exactly the
fixed configuration `playerWindow`.  This holds of any state in which the
only source of "player" windows is the command itself. -/
def playerConfigured (s : AppState) : Prop :=
  ∀ w ∈ s.windows, w.label = "player" → w = playerWindow

/-- States reachable from `s0` by repeated invocations of
`open_player_window`, with arbitrary build outcomes. -/
inductive Reachable (s0 : AppState) : AppState → Prop where
  | refl : Reachable s0 s0
  | step : ∀ {s : AppState} (o : BuildOutcome), Reachable s0 s →
      Reachable s0 (open_player_window s o).state

/-- The plugins registered by the bootstrap (lines 22-24 of the source). -/
inductive Plugin where
  | opener
  | dialog
  | fs
deriving DecidableEq, Repr

/-- The Tauri application builder state assembled by `run`: registered
plugins and the names in the command-dispatch table. -/
structure Builder where
  plugins : List Plugin
  handlers : List String
deriving DecidableEq, Repr

/-- Embedding of `tauri::Builder::default()`. -/
def Builder.default : Builder :=
  { plugins := [], handlers := [] }

/-- Embedding of `.plugin(p)`: registers one more plugin. -/
def Builder.plugin (b : Builder) (p : Plugin) : Builder :=
  { b with plugins := b.plugins ++ [p] }

/-- Embedding of `.invoke_handler(tauri::generate_handler![...])`:
installs the command-dispatch table. -/
def Builder.invoke_handler (b : Builder) (hs : List String) : Builder :=
  { b with handlers := hs }

/-- The builder assembled by `run` (lines 21-25 of the source). -/
def runBuilder : Builder :=
  (((Builder.default.plugin Plugin.opener).plugin Plugin.dialog).plugin
      Plugin.fs).invoke_handler ["open_player_window"]

/-- Fate of the process after the bootstrap: blocked in the event loop,
or terminated by the `expect` with a diagnostic message. -/
inductive ProcessOutcome where
  | running
  | terminated (diagnostic : String)
deriving DecidableEq, Repr

/-- Embedding of the tail of `run` (lines 26-27): `.run(ctx)` blocks in
the event loop on success; on a runtime-initialization error `e`,
`.expect("error while running tauri application")` terminates the process
with a diagnostic naming that message and the error. -/
def run (initResult : Except String Unit) : ProcessOutcome :=
  match initResult with
  | Except.ok () => ProcessOutcome.running
  | Except.error e =>
      ProcessOutcome.terminated ("error while running tauri application: " ++ e)

/-! ### Helper lemmas about the embedding -/

theorem get_player_none_iff (s : AppState) :
    get_webview_window s "player" = none ↔ ∀ w ∈ s.windows, w.label ≠ "player" := by
  unfold get_webview_window
  rw [List.find?_eq_none]
  simp

theorem open_player_window_present_eq (s : AppState) (o : BuildOutcome) (w : Window)
    (h : get_webview_window s "player" = some w) :
    open_player_window s o = { result := Except.ok (), state := s, requests := [] } := by
  simp [open_player_window, h]

theorem open_player_window_absent_ok_eq (s : AppState)
    (h : get_webview_window s "player" = none) :
    open_player_window s BuildOutcome.ok =
      { result := Except.ok ()
        state := { windows := s.windows ++ [playerWindow] }
        requests := [playerWindow] } := by
  simp [open_player_window, h]

theorem open_player_window_absent_err_eq (s : AppState) (e : String)
    (h : get_webview_window s "player" = none) :
    open_player_window s (BuildOutcome.err e) =
      { result := Except.error e, state := s, requests := [playerWindow] } := by
  simp [open_player_window, h]

theorem get_player_after_create (s : AppState)
    (h : get_webview_window s "player" = none) :
    get_webview_window { windows := s.windows ++ [playerWindow] } "player" =
      some playerWindow := by
  unfold get_webview_window at h ⊢
  rw [List.find?_append, h]
  rfl

theorem countPlayer_eq_zero_of_absent (s : AppState)
    (h : get_webview_window s "player" = none) :
    countPlayer s = 0 := by
  unfold countPlayer
  rw [List.length_eq_zero, List.filter_eq_nil_iff]
  intro w hw
  simpa using (get_player_none_iff s).mp h w hw

theorem countPlayer_eq_count_label (s : AppState) :
    countPlayer s = (s.windows.map Window.label).count "player" := by
  unfold countPlayer
  rw [List.count_eq_countP, List.countP_map, ← List.countP_eq_length_filter]
  rfl

theorem countPlayer_le_one_of_nodup (s : AppState) (h : labelsNodup s) :
    countPlayer s ≤ 1 := by
  rw [countPlayer_eq_count_label]
  exact List.nodup_iff_count_le_one.mp h "player"

theorem countPlayer_pos_of_present (s : AppState) (w : Window)
    (h : get_webview_window s "player" = some w) :
    1 ≤ countPlayer s := by
  unfold get_webview_window at h
  have hmem : w ∈ s.windows := List.mem_of_find?_eq_some h
  have hlab :=
    @List.find?_some Window (fun w => w.label == "player") w s.windows h
  have : w ∈ s.windows.filter (fun w => w.label == "player") :=
    List.mem_filter.mpr ⟨hmem, hlab⟩
  have hne : s.windows.filter (fun w => w.label == "player") ≠ [] :=
    List.ne_nil_of_mem this
  unfold countPlayer
  exact Nat.one_le_iff_ne_zero.mpr (fun hz => hne (List.eq_nil_of_length_eq_zero hz))

theorem countPlayer_append_player (s : AppState) :
    countPlayer { windows := s.windows ++ [playerWindow] } = countPlayer s + 1 := by
  unfold countPlayer
  rw [List.filter_append, List.length_append]
  rfl

theorem labelsNodup_step (s : AppState) (o : BuildOutcome) (h : labelsNodup s) :
    labelsNodup (open_player_window s o).state := by
  cases hg : get_webview_window s "player" with
  | some w => rw [open_player_window_present_eq s o w hg]; exact h
  | none =>
      cases o with
      | err e => rw [open_player_window_absent_err_eq s e hg]; exact h
      | ok =>
          rw [open_player_window_absent_ok_eq s hg]
          unfold labelsNodup at h ⊢
          rw [List.map_append, List.nodup_append]
          refine ⟨h, List.nodup_singleton _, ?_⟩
          intro a ha hb
          simp [playerWindow] at hb
          subst hb
          obtain ⟨w, hw, hl⟩ := List.mem_map.mp ha
          exact (get_player_none_iff s).mp hg w hw hl

theorem labelsNodup_reachable (s0 s : AppState) (h0 : labelsNodup s0)
    (hr : Reachable s0 s) : labelsNodup s := by
  induction hr with
  | refl => exact h0
  | step o _ ih => exact labelsNodup_step _ o ih

theorem playerConfigured_step (s : AppState) (o : BuildOutcome)
    (h : playerConfigured s) : playerConfigured (open_player_window s o).state := by
  cases hg : get_webview_window s "player" with
  | some w => rw [open_player_window_present_eq s o w hg]; exact h
  | none =>
      cases o with
      | err e => rw [open_player_window_absent_err_eq s e hg]; exact h
      | ok =>
          rw [open_player_window_absent_ok_eq s hg]
          intro w hw hl
          rcases List.mem_append.mp hw with hin | hin
          · exact h w hin hl
          · simpa using hin

theorem playerConfigured_reachable (s0 s : AppState) (h0 : playerConfigured s0)
    (hr : Reachable s0 s) : playerConfigured s := by
  induction hr with
  | refl => exact h0
  | step o _ ih => exact playerConfigured_step _ o ih

/-! ### Claim theorems -/

/-- C1: Invoking `open_player_window` twice in succession (the first
build succeeding, no intervening close), starting from any state
satisfying the runtime's label-uniqueness invariant, results in exactly
one window named "player" existing, and the second invocation returns
success while issuing no creation request. -/
theorem open_player_window_idempotent (s : AppState) (o2 : BuildOutcome)
    (hinv : labelsNodup s) :
    countPlayer (open_player_window (open_player_window s BuildOutcome.ok).state o2).state
      = 1 ∧
    (open_player_window (open_player_window s BuildOutcome.ok).state o2).result
      = Except.ok () ∧
    (open_player_window (open_player_window s BuildOutcome.ok).state o2).requests = [] := by
  cases hg : get_webview_window s "player" with
  | some w =>
      have h1 : (open_player_window s BuildOutcome.ok).state = s := by
        rw [open_player_window_present_eq s BuildOutcome.ok w hg]
      rw [h1, open_player_window_present_eq s o2 w hg]
      have hle := countPlayer_le_one_of_nodup s hinv
      have hge := countPlayer_pos_of_present s w hg
      exact ⟨Nat.le_antisymm hle hge, rfl, rfl⟩
  | none =>
      have h1 : (open_player_window s BuildOutcome.ok).state =
          { windows := s.windows ++ [playerWindow] } := by
        rw [open_player_window_absent_ok_eq s hg]
      rw [h1, open_player_window_present_eq _ o2 playerWindow (get_player_after_create s hg)]
      refine ⟨?_, rfl, rfl⟩
      rw [countPlayer_append_player s, countPlayer_eq_zero_of_absent s hg]

/-- Witness for C1 at the empty state. -/
theorem open_player_window_idempotent_witness :
    labelsNodup { windows := [] } ∧
    (countPlayer (open_player_window
        (open_player_window { windows := [] } BuildOutcome.ok).state BuildOutcome.ok).state
      = 1 ∧
    (open_player_window
        (open_player_window { windows := [] } BuildOutcome.ok).state BuildOutcome.ok).result
      = Except.ok () ∧
    (open_player_window
        (open_player_window { windows := [] } BuildOutcome.ok).state BuildOutcome.ok).requests
      = []) :=
  ⟨by decide,
   open_player_window_idempotent { windows := [] } BuildOutcome.ok (by decide)⟩

/-- C2: When no window named "player" exists, the command issues exactly
one creation request, whose configuration is fixed: identifier "player",
title "VTT - Player View", 1920 by 1080 logical pixels, and the bundled
root document "index.html"; when the build succeeds, exactly that window
is appended to the registry. -/
theorem open_player_window_absent_requests_fixed_config (s : AppState) (o : BuildOutcome)
    (h : get_webview_window s "player" = none) :
    (open_player_window s o).requests = [playerWindow] ∧
    playerWindow.label = "player" ∧
    playerWindow.title = "VTT - Player View" ∧
    playerWindow.width = 1920 ∧
    playerWindow.height = 1080 ∧
    playerWindow.url = WebviewUrl.App "index.html" ∧
    (o = BuildOutcome.ok →
      (open_player_window s o).state.windows = s.windows ++ [playerWindow]) := by
  cases o with
  | ok =>
      rw [open_player_window_absent_ok_eq s h]
      exact ⟨rfl, rfl, rfl, rfl, rfl, rfl, fun _ => rfl⟩
  | err e =>
      rw [open_player_window_absent_err_eq s e h]
      refine ⟨rfl, rfl, rfl, rfl, rfl, rfl, fun hc => ?_⟩
      cases hc

/-- Witness for C2 at the empty state. -/
theorem open_player_window_absent_requests_fixed_config_witness :
    get_webview_window { windows := [] } "player" = none ∧
    ((open_player_window { windows := [] } BuildOutcome.ok).requests = [playerWindow] ∧
    playerWindow.label = "player" ∧
    playerWindow.title = "VTT - Player View" ∧
    playerWindow.width = 1920 ∧
    playerWindow.height = 1080 ∧
    playerWindow.url = WebviewUrl.App "index.html" ∧
    (BuildOutcome.ok = BuildOutcome.ok →
      (open_player_window { windows := [] } BuildOutcome.ok).state.windows =
        AppState.windows { windows := [] } ++ [playerWindow])) :=
  ⟨rfl, open_player_window_absent_requests_fixed_config { windows := [] } BuildOutcome.ok rfl⟩

/-- C3: In any state reachable by invocations of the command from a
state whose "player" windows (if any) carry the fixed configuration,
every successful invocation leaves a window titled "VTT - Player View"
of size 1920 by 1080 showing the bundled root document. -/
theorem open_player_window_success_window_exists (s0 s : AppState) (o : BuildOutcome)
    (hconf : playerConfigured s0) (hr : Reachable s0 s)
    (hok : (open_player_window s o).result = Except.ok ()) :
    ∃ w ∈ (open_player_window s o).state.windows,
      w.title = "VTT - Player View" ∧ w.width = 1920 ∧ w.height = 1080 ∧
      w.url = WebviewUrl.App "index.html" := by
  have hc := playerConfigured_reachable s0 s hconf hr
  cases hg : get_webview_window s "player" with
  | some w =>
      rw [open_player_window_present_eq s o w hg]
      have hg' : s.windows.find? (fun w => w.label == "player") = some w := hg
      have hmem : w ∈ s.windows := List.mem_of_find?_eq_some hg'
      have hlab := @List.find?_some Window (fun w => w.label == "player") w s.windows hg'
      have hl : w.label = "player" := by simpa using hlab
      refine ⟨w, hmem, ?_⟩
      rw [hc w hmem hl]
      exact ⟨rfl, rfl, rfl, rfl⟩
  | none =>
      cases o with
      | ok =>
          rw [open_player_window_absent_ok_eq s hg]
          exact ⟨playerWindow, by simp, rfl, rfl, rfl, rfl⟩
      | err e =>
          rw [open_player_window_absent_err_eq s e hg] at hok
          simp at hok

/-- Witness for C3 at the empty state with a successful build. -/
theorem open_player_window_success_window_exists_witness :
    playerConfigured { windows := [] } ∧
    (open_player_window { windows := [] } BuildOutcome.ok).result = Except.ok () ∧
    (∃ w ∈ (open_player_window { windows := [] } BuildOutcome.ok).state.windows,
      w.title = "VTT - Player View" ∧ w.width = 1920 ∧ w.height = 1080 ∧
      w.url = WebviewUrl.App "index.html") :=
  ⟨(by intro w hw; cases hw), rfl,
   open_player_window_success_window_exists { windows := [] } { windows := [] }
     BuildOutcome.ok (by intro w hw; cases hw) Reachable.refl rfl⟩

/-- C4: When a window named "player" already exists, the command succeeds
immediately with an empty payload, issues no creation request, and leaves
the window registry (hence every window and its attributes) unchanged. -/
theorem open_player_window_present_frame (s : AppState) (o : BuildOutcome) (w : Window)
    (h : get_webview_window s "player" = some w) :
    (open_player_window s o).result = Except.ok () ∧
    (open_player_window s o).state = s ∧
    (open_player_window s o).requests = [] := by
  rw [open_player_window_present_eq s o w h]
  exact ⟨rfl, rfl, rfl⟩

/-- Witness for C4 at a state already holding the player window. -/
theorem open_player_window_present_frame_witness :
    get_webview_window { windows := [playerWindow] } "player" = some playerWindow ∧
    ((open_player_window { windows := [playerWindow] } BuildOutcome.ok).result
      = Except.ok () ∧
    (open_player_window { windows := [playerWindow] } BuildOutcome.ok).state
      = { windows := [playerWindow] } ∧
    (open_player_window { windows := [playerWindow] } BuildOutcome.ok).requests = []) :=
  ⟨by decide,
   open_player_window_present_frame { windows := [playerWindow] } BuildOutcome.ok
     playerWindow (by decide)⟩

/-- C5: The command has exactly two result shapes: success with empty
payload, or failure carrying the string rendering of the underlying
build error; a failure always carries the build primitive's own message. -/
theorem open_player_window_result_dichotomy (s : AppState) (o : BuildOutcome) :
    (open_player_window s o).result = Except.ok () ∨
    ∃ e, (open_player_window s o).result = Except.error e ∧ o = BuildOutcome.err e := by
  cases hg : get_webview_window s "player" with
  | some w => left; rw [open_player_window_present_eq s o w hg]
  | none =>
      cases o with
      | ok => left; rw [open_player_window_absent_ok_eq s hg]
      | err e =>
          right
          exact ⟨e, by rw [open_player_window_absent_err_eq s e hg], rfl⟩

/-- C6: When no window named "player" exists and the build primitive
fails with a non-empty description, the command returns a failure
carrying that non-empty description, the registry is unchanged, and no
window is registered under "player" afterwards. -/
theorem open_player_window_failure_unregistered (s : AppState) (e : String)
    (habs : get_webview_window s "player" = none) (hne : e ≠ "") :
    (open_player_window s (BuildOutcome.err e)).result = Except.error e ∧
    e ≠ "" ∧
    (open_player_window s (BuildOutcome.err e)).state = s ∧
    get_webview_window (open_player_window s (BuildOutcome.err e)).state "player"
      = none := by
  rw [open_player_window_absent_err_eq s e habs]
  exact ⟨rfl, hne, rfl, habs⟩

/-- Witness for C6 at the empty state with a failing build. -/
theorem open_player_window_failure_unregistered_witness :
    get_webview_window { windows := [] } "player" = none ∧
    "window creation refused" ≠ "" ∧
    ((open_player_window { windows := [] }
        (BuildOutcome.err "window creation refused")).result
      = Except.error "window creation refused" ∧
    "window creation refused" ≠ "" ∧
    (open_player_window { windows := [] }
        (BuildOutcome.err "window creation refused")).state = { windows := [] } ∧
    get_webview_window (open_player_window { windows := [] }
        (BuildOutcome.err "window creation refused")).state "player" = none) :=
  ⟨rfl, by decide,
   open_player_window_failure_unregistered { windows := [] }
     "window creation refused" rfl (by decide)⟩

/-- C7: In every state reachable by invocations of the command from a
state satisfying the label-uniqueness invariant, at most one window
exists per identifier; in particular at most one window is labelled
"player". -/
theorem open_player_window_at_most_one_per_label (s0 s : AppState)
    (h0 : labelsNodup s0) (hr : Reachable s0 s) :
    labelsNodup s ∧ countPlayer s ≤ 1 := by
  have h := labelsNodup_reachable s0 s h0 hr
  exact ⟨h, countPlayer_le_one_of_nodup s h⟩

/-- Witness for C7 after one step from the empty state. -/
theorem open_player_window_at_most_one_per_label_witness :
    labelsNodup { windows := [] } ∧
    (labelsNodup (open_player_window { windows := [] } BuildOutcome.ok).state ∧
    countPlayer (open_player_window { windows := [] } BuildOutcome.ok).state ≤ 1) :=
  ⟨by decide,
   open_player_window_at_most_one_per_label { windows := [] }
     (open_player_window { windows := [] } BuildOutcome.ok).state (by decide)
     (Reachable.step BuildOutcome.ok Reachable.refl)⟩

/-- C8: The bootstrap registers exactly the three capability plugins
(file opener, dialogs, filesystem) in order, installs a dispatch table
mapping only "open_player_window", blocks in the event loop on success,
and on a runtime-initialization error terminates the process with a
diagnostic message rather than returning a recoverable error. -/
theorem run_bootstrap_wiring :
    runBuilder.plugins = [Plugin.opener, Plugin.dialog, Plugin.fs] ∧
    runBuilder.plugins.length = 3 ∧
    runBuilder.handlers = ["open_player_window"] ∧
    run (Except.ok ()) = ProcessOutcome.running ∧
    ∀ e : String, run (Except.error e) =
      ProcessOutcome.terminated ("error while running tauri application: " ++ e) :=
  ⟨rfl, rfl, rfl, rfl, fun _ => rfl⟩

/-- C9: The handler is a total function; its only failure path is the
build primitive: every error result carries exactly the build error's
string rendering, and an error can only arise when no "player" window
existed (the creation branch). -/
theorem open_player_window_error_iff_build_failed (s : AppState) (o : BuildOutcome)
    (msg : String) (herr : (open_player_window s o).result = Except.error msg) :
    o = BuildOutcome.err msg ∧ get_webview_window s "player" = none := by
  cases hg : get_webview_window s "player" with
  | some w =>
      rw [open_player_window_present_eq s o w hg] at herr
      simp at herr
  | none =>
      cases o with
      | ok =>
          rw [open_player_window_absent_ok_eq s hg] at herr
          simp at herr
      | err e =>
          rw [open_player_window_absent_err_eq s e hg] at herr
          have he : e = msg := by simpa using herr
          exact ⟨by rw [he], rfl⟩

/-- Witness for C9 at the empty state with a failing build. -/
theorem open_player_window_error_iff_build_failed_witness :
    (open_player_window { windows := [] } (BuildOutcome.err "boom")).result
      = Except.error "boom" ∧
    (BuildOutcome.err "boom" = BuildOutcome.err "boom" ∧
     get_webview_window { windows := [] } "player" = none) :=
  ⟨rfl,
   open_player_window_error_iff_build_failed { windows := [] }
     (BuildOutcome.err "boom") "boom" rfl⟩

/-- A state holding only windows whose labels differ from "player",
including the near-miss labels "Player" and "player2". -/
def mixedLabelState : AppState :=
  { windows :=
      [{ label := "Player", title := "VTT - Player View", width := 1920,
         height := 1080, url := WebviewUrl.App "index.html" },
       { label := "player2", title := "Other", width := 640,
         height := 480, url := WebviewUrl.App "other.html" }] }

/-- C10: The existence guard compares the exact, case-sensitive label
"player": in any state whose windows all carry other labels (such as
"Player" or "player2"), the lookup misses and the command behaves as the
Absent transition, requesting and (on success) registering the fixed
player window. -/
theorem open_player_window_guard_case_sensitive (s : AppState)
    (h : ∀ w ∈ s.windows, w.label ≠ "player") :
    get_webview_window s "player" = none ∧
    (open_player_window s BuildOutcome.ok).requests = [playerWindow] ∧
    (open_player_window s BuildOutcome.ok).state.windows = s.windows ++ [playerWindow] ∧
    (open_player_window s BuildOutcome.ok).result = Except.ok () := by
  have habs := (get_player_none_iff s).mpr h
  rw [open_player_window_absent_ok_eq s habs]
  exact ⟨habs, rfl, rfl, rfl⟩

/-- Witness for C10 at a state holding windows labelled "Player" and
"player2" only. -/
theorem open_player_window_guard_case_sensitive_witness :
    (∀ w ∈ mixedLabelState.windows, w.label ≠ "player") ∧
    (get_webview_window mixedLabelState "player" = none ∧
    (open_player_window mixedLabelState BuildOutcome.ok).requests = [playerWindow] ∧
    (open_player_window mixedLabelState BuildOutcome.ok).state.windows =
      mixedLabelState.windows ++ [playerWindow] ∧
    (open_player_window mixedLabelState BuildOutcome.ok).result = Except.ok ()) :=
  ⟨by decide, open_player_window_guard_case_sensitive mixedLabelState (by decide)⟩

end LocalTabletopMap
